import Mathlib

/-!
Verification of the hospital disaster-demand dataset generators and the
uncertainty-set builder.  The development shallowly embeds the four scripts:

* `Dataset`    — the discrete scenario table generator (`dataset.py`);
* `Continuous` — the continuous correlated sampler (`continuous_dataset.py`);
* `Hybrid`     — the discrete-base + continuous-perturbation sampler
  (`hospital_continuous_dataset.py`);
* `UncertaintySets` — the interval-bound builder (`uncertainty_sets.py`).

Machine reals are modelled by `ℚ`; random draws become explicit parameters,
so the theorems quantify over every value the random number generator could
have produced.
-/

/- ### Generic list helpers -/

/-- Summing a list after pointwise division distributes the division. -/
lemma list_sum_map_div (l : List ℚ) (s : ℚ) :
    (l.map (fun w => w / s)).sum = l.sum / s := by
  induction l with
  | nil => simp
  | cons x xs ih => simp [ih, add_div]

/-- Summing a list after pointwise right multiplication distributes. -/
lemma list_sum_map_mul (l : List ℚ) (c : ℚ) :
    (l.map (fun p => p * c)).sum = l.sum * c := by
  induction l with
  | nil => simp
  | cons x xs ih => simp [ih, add_mul]

/-- Replacing an in-range element changes the sum by the difference. -/
lemma list_sum_set (l : List ℚ) (i : ℕ) (a : ℚ) (h : i < l.length) :
    (l.set i a).sum = l.sum - l.getD i 0 + a := by
  induction l generalizing i with
  | nil => simp at h
  | cons x xs ih =>
    cases i with
    | zero => simp [List.set]; ring
    | succ n =>
      have hn : n < xs.length := by simpa using h
      simp [List.set, ih n hn]; ring

/-- Removing an in-range element removes its value from the sum. -/
lemma list_sum_eraseIdx (l : List ℚ) (i : ℕ) (h : i < l.length) :
    (l.eraseIdx i).sum = l.sum - l.getD i 0 := by
  induction l generalizing i with
  | nil => simp at h
  | cons x xs ih =>
    cases i with
    | zero => simp [List.eraseIdx]
    | succ n =>
      have hn : n < xs.length := by simpa using h
      simp [List.eraseIdx, ih n hn]; ring

/-- `getD` commutes with `map` at in-range indices. -/
lemma list_getD_map (l : List ℚ) (f : ℚ → ℚ) (i : ℕ) (h : i < l.length) :
    (l.map f).getD i 0 = f (l.getD i 0) := by
  induction l generalizing i with
  | nil => simp at h
  | cons x xs ih =>
    cases i with
    | zero => simp
    | succ n =>
      have hn : n < xs.length := by simpa using h
      simpa using ih n hn

/-- Reading back an in-range update returns the written value. -/
lemma list_getD_set (l : List ℚ) (i : ℕ) (a : ℚ) (h : i < l.length) :
    (l.set i a).getD i 0 = a := by
  induction l generalizing i with
  | nil => simp at h
  | cons x xs ih =>
    cases i with
    | zero => simp [List.set]
    | succ n =>
      have hn : n < xs.length := by simpa using h
      simpa [List.set] using ih n hn

/-- A list of zeros sums to zero. -/
lemma list_sum_replicate_zero (n : ℕ) : (List.replicate n (0 : ℚ)).sum = 0 := by
  induction n with
  | zero => simp
  | succ m ih => simp [List.replicate, ih]

/-- Every read from a list of zeros (with default zero) is zero. -/
lemma list_getD_replicate_zero (n i : ℕ) :
    (List.replicate n (0 : ℚ)).getD i 0 = 0 := by
  induction n generalizing i with
  | zero => simp
  | succ m ih =>
    cases i with
    | zero => simp [List.replicate]
    | succ j => simp [List.replicate, ih j]

/- ### Rounding

`numpy.round` rounds half to even.  `roundHalfEven x` is that rule on `ℚ`,
returning an integer; `round2 x` is `numpy.round(x, 2)`. -/

/-- Round half to even, the rule used by `np.round`. -/
def roundHalfEven (x : ℚ) : ℤ :=
  if x - ⌊x⌋ < 1/2 then ⌊x⌋
  else if 1/2 < x - ⌊x⌋ then ⌈x⌉
  else if 2 ∣ ⌊x⌋ then ⌊x⌋ else ⌊x⌋ + 1

/-- `np.round(x, 2)`: round half to even at the second decimal. -/
def round2 (x : ℚ) : ℚ := (roundHalfEven (x * 100) : ℚ) / 100

lemma roundHalfEven_nonneg {x : ℚ} (h : 0 ≤ x) : 0 ≤ roundHalfEven x := by
  have hfloor : (0 : ℤ) ≤ ⌊x⌋ := Int.floor_nonneg.mpr h
  have hceil : (0 : ℤ) ≤ ⌈x⌉ := le_trans hfloor (Int.floor_le_ceil x)
  unfold roundHalfEven
  split
  · exact hfloor
  · split
    · exact hceil
    · split
      · exact hfloor
      · omega

lemma round2_nonneg {x : ℚ} (h : 0 ≤ x) : 0 ≤ round2 x := by
  have : (0 : ℤ) ≤ roundHalfEven (x * 100) :=
    roundHalfEven_nonneg (by positivity)
  unfold round2
  positivity

/- ### Discrete dataset generator (`dataset.py`) -/

namespace Dataset

/-- Hospital record: display name, bed capacity, per-unit allocation cost. -/
structure HospitalInfo where
  hname : String
  capacity : ℕ
  alloc_cost : ℚ
deriving DecidableEq

/-- The three hand-authored hospitals. -/
def hospitals : List (String × HospitalInfo) :=
  [("H1", ⟨"Central Hospital", 250, 2⟩),
   ("H2", ⟨"North Clinic", 180, 22/10⟩),
   ("H3", ⟨"South Medical Center", 150, 18/10⟩)]

def shortage_penalty : ℚ := 8

/-- One catalog entry: id, disaster type, demands for H1..H3, probability. -/
structure DiscreteScenario where
  sid : String
  dtype : String
  demands : List ℚ
  probability : ℚ
deriving DecidableEq

/-- The fixed catalog of 8 scenarios with literal demands and probabilities. -/
def scenarios : List DiscreteScenario :=
  [⟨"S0", "no_disaster", [6, 5, 4], 65/100⟩,
   ⟨"S1", "mild_flood", [60, 45, 35], 5/100⟩,
   ⟨"S2", "moderate_flood", [85, 65, 45], 4/100⟩,
   ⟨"S3", "earthquake", [110, 85, 65], 5/100⟩,
   ⟨"S4", "heatwave", [70, 55, 45], 10/100⟩,
   ⟨"S5", "severe_storm", [95, 75, 55], 5/100⟩,
   ⟨"S6", "major_earthquake", [150, 110, 90], 4/100⟩,
   ⟨"S7", "multi_wave_pandemic", [200, 140, 120], 2/100⟩]

/-- One flattened output row, the unit written to the CSV. -/
structure DiscreteRow where
  scenario_id : String
  scenario_probability : ℚ
  disaster_type : String
  hospital_id : String
  hospital_name : String
  capacity_beds : ℕ
  demand : ℚ
  allocation_cost_per_unit : ℚ
  shortage_penalty_per_unit : ℚ
deriving DecidableEq

def lookupHospital (hid : String) : HospitalInfo :=
  (hospitals.lookup hid).getD ⟨"", 0, 0⟩

/-- The row-assembly loop: one row per (scenario, hospital) pair. -/
def discreteRows : List DiscreteRow :=
  scenarios.flatMap (fun s =>
    (List.range 3).map (fun i =>
      let hid := ["H1", "H2", "H3"].getD i ""
      let info := lookupHospital hid
      { scenario_id := s.sid
        scenario_probability := s.probability
        disaster_type := s.dtype
        hospital_id := hid
        hospital_name := info.hname
        capacity_beds := info.capacity
        demand := s.demands.getD i 0
        allocation_cost_per_unit := info.alloc_cost
        shortage_penalty_per_unit := shortage_penalty }))

end Dataset

/- ### Continuous correlated sampler (`continuous_dataset.py`) -/

namespace Continuous

def NUM_SCENARIOS : ℕ := 1000
def INCLUDE_BASELINE_SCENARIO : Bool := true
def BASELINE_WEIGHT : ℚ := 1
/-- Portion of probability mass reserved for the calm scenario; the Python
constant is a float that may also be `None`, hence the `Option`. -/
def BASELINE_PROBABILITY_SHARE : Option ℚ := some (35/100)
def BASELINE_DEMAND_SCALE : ℚ := 35/100
def BASELINE_MIN_DEMAND : List ℚ := [6, 45/10, 35/10]

def baseline_demand : List ℚ := [20, 15, 12]
def severity_sensitivity : List ℚ := [1, 85/100, 70/100]

/-- A realized sample, mirroring the `ScenarioDraw` dataclass. -/
structure ScenarioDraw where
  scenario_id : String
  hazard_type : String
  severity_score : ℚ
  global_severity : ℚ
  regional_component : List ℚ
  idiosyncratic_component : List ℚ
  raw_probability_weight : ℚ
  demand_vector : List ℚ

/-- A draw that stands for no row at all, used only as a `getD` default at
indices that are always in range. -/
def dummyDraw : ScenarioDraw := ⟨"", "", 0, 0, [], [], 0, []⟩

/-- The deterministic no-disaster reference scenario. -/
def buildBaselineDraw : ScenarioDraw :=
  { scenario_id := "CSBASE"
    hazard_type := "no_event"
    severity_score := 0
    global_severity := 0
    regional_component := [0, 0, 0]
    idiosyncratic_component := [0, 0, 0]
    raw_probability_weight := BASELINE_WEIGHT
    demand_vector :=
      List.zipWith max (baseline_demand.map (· * BASELINE_DEMAND_SCALE)) BASELINE_MIN_DEMAND }

/-- `sample_scenarios` raises `ValueError` exactly when
`num_scenarios - (1 if include_baseline else 0)` is negative.  The count is a
Python `int`, hence `ℤ`. -/
def sampleScenariosRaises (numScenarios : ℤ) (includeBaseline : Bool) : Bool :=
  decide (numScenarios - (if includeBaseline then 1 else 0) < 0)

/-- The per-hospital demand of a random draw:
baseline + sensitivity-scaled severity + regional + idiosyncratic, clipped at
zero (`np.clip(demand, 0, None)`). -/
def scenarioDemand (base sens globalSeverity regional idiosyncratic : ℚ) : ℚ :=
  max 0 (base + sens * globalSeverity + regional + idiosyncratic)

/-- The raw probability weight of a random draw:
hazard weight times (severity score + 1e-6). -/
def rawWeight (hazardWeight severityScore : ℚ) : ℚ :=
  hazardWeight * (severityScore + 1/1000000)

/-- The raw weights of a draw list, as collected by `build_dataframe`. -/
def weights (draws : List ScenarioDraw) : List ℚ :=
  draws.map ScenarioDraw.raw_probability_weight

/-- `[idx for idx, draw in enumerate(draws) if draw.scenario_id == "CSBASE"]`. -/
def baselineIndices (draws : List ScenarioDraw) : List ℕ :=
  (List.range draws.length).filter
    (fun idx => (draws.getD idx dummyDraw).scenario_id == "CSBASE")

/-- `probabilities = weights / weights.sum()`. -/
def normalizedProbs (draws : List ScenarioDraw) : List ℚ :=
  (weights draws).map (fun w => w / (weights draws).sum)

/-- The probability pipeline of `build_dataframe`: normalize the raw weights,
then, when a baseline share is configured and a baseline draw exists, clip the
share to [0, 0.95] (`np.clip`), rescale everything by the remaining mass over
the residual and overwrite the baseline entry with the share (with a
degenerate branch when the baseline already holds all mass). -/
def buildProbabilities (draws : List ScenarioDraw) (includeBaseline : Bool)
    (share? : Option ℚ) : List ℚ :=
  if includeBaseline then
    match share? with
    | none => normalizedProbs draws
    | some shareCfg =>
      match (baselineIndices draws).head? with
      | none => normalizedProbs draws
      | some baselineIdx =>
        if 1 - (normalizedProbs draws).getD baselineIdx 0 ≤ 0 then
          (List.replicate (normalizedProbs draws).length 0).set baselineIdx 1
        else
          ((normalizedProbs draws).map
              (fun p => p * ((1 - min (max shareCfg 0) (95/100)) /
                (1 - (normalizedProbs draws).getD baselineIdx 0)))).set
            baselineIdx (min (max shareCfg 0) (95/100))
  else normalizedProbs draws

/-- `build_dataframe` at the configured module constants. -/
def buildDataframeProbs (draws : List ScenarioDraw) : List ℚ :=
  buildProbabilities draws INCLUDE_BASELINE_SCENARIO BASELINE_PROBABILITY_SHARE

lemma length_normalizedProbs (draws : List ScenarioDraw) :
    (normalizedProbs draws).length = draws.length := by
  simp [normalizedProbs, weights]

lemma normalizedProbs_sum (draws : List ScenarioDraw)
    (h : (weights draws).sum ≠ 0) : (normalizedProbs draws).sum = 1 := by
  rw [normalizedProbs, list_sum_map_div]
  exact div_self h

/-- The first baseline index, when it exists, is in range. -/
lemma head_baselineIndices_lt {draws : List ScenarioDraw} {i : ℕ}
    (h : (baselineIndices draws).head? = some i) : i < draws.length := by
  have hmem : i ∈ baselineIndices draws := by
    cases hb : baselineIndices draws with
    | nil => rw [hb] at h; exact absurd h (by simp)
    | cons a t =>
      rw [hb] at h
      simp only [List.head?_cons, Option.some.injEq] at h
      subst h
      exact List.mem_cons_self a t
  exact List.mem_range.mp (List.mem_of_mem_filter hmem)

/-- After the full `build_dataframe` probability pipeline the scenario
probabilities sum to one, in every branch. -/
lemma buildProbabilities_sum_eq_one (draws : List ScenarioDraw) (b : Bool)
    (share? : Option ℚ) (h : (weights draws).sum ≠ 0) :
    (buildProbabilities draws b share?).sum = 1 := by
  unfold buildProbabilities
  cases b with
  | false => simpa using normalizedProbs_sum draws h
  | true =>
    cases share? with
    | none => simpa using normalizedProbs_sum draws h
    | some sc =>
      cases hidx : (baselineIndices draws).head? with
      | none => simpa [hidx] using normalizedProbs_sum draws h
      | some i =>
        have hilt : i < (normalizedProbs draws).length := by
          rw [length_normalizedProbs]
          exact head_baselineIndices_lt hidx
        simp only [hidx, if_true]
        split
        · rw [list_sum_set _ i 1 (by simpa using hilt)]
          rw [list_sum_replicate_zero, list_getD_replicate_zero]
          norm_num
        · rename_i hres
          have hpos : 0 < 1 - (normalizedProbs draws).getD i 0 := not_le.mp hres
          have hne : 1 - (normalizedProbs draws).getD i 0 ≠ 0 := ne_of_gt hpos
          rw [list_sum_set _ i _ (by simpa using hilt)]
          rw [list_sum_map_mul, list_getD_map _ _ i hilt]
          rw [normalizedProbs_sum draws h]
          set p := (normalizedProbs draws).getD i 0 with hpdef
          set sh := min (max sc 0) (95/100) with hshdef
          have hc : (1 - p) * ((1 - sh) / (1 - p)) = 1 - sh := by
            rw [mul_comm]
            exact div_mul_cancel₀ _ hne
          have hc2 : 1 * ((1 - sh) / (1 - p)) - p * ((1 - sh) / (1 - p)) + sh
              = (1 - p) * ((1 - sh) / (1 - p)) + sh := by ring
          rw [hc2, hc]
          ring

/-- In the non-degenerate branch the baseline entry is exactly the clipped
share and the remaining entries sum to one minus it. -/
lemma buildProbabilities_baseline_share (draws : List ScenarioDraw) (i : ℕ)
    (sc : ℚ) (h : (weights draws).sum ≠ 0)
    (hidx : (baselineIndices draws).head? = some i)
    (hres : (normalizedProbs draws).getD i 0 < 1) :
    (buildProbabilities draws true (some sc)).getD i 0 = min (max sc 0) (95/100) ∧
    ((buildProbabilities draws true (some sc)).eraseIdx i).sum
      = 1 - min (max sc 0) (95/100) := by
  have hilt : i < (normalizedProbs draws).length := by
    rw [length_normalizedProbs]
    exact head_baselineIndices_lt hidx
  have hpos : 0 < 1 - (normalizedProbs draws).getD i 0 := by linarith
  have hcond : ¬(1 - (normalizedProbs draws).getD i 0 ≤ 0) := by linarith
  have hsum : (buildProbabilities draws true (some sc)).sum = 1 :=
    buildProbabilities_sum_eq_one draws true (some sc) h
  have hmaplen : i < ((normalizedProbs draws).map
      (fun p => p * ((1 - min (max sc 0) (95/100)) /
        (1 - (normalizedProbs draws).getD i 0)))).length := by
    simpa using hilt
  have hget : (buildProbabilities draws true (some sc)).getD i 0
      = min (max sc 0) (95/100) := by
    unfold buildProbabilities
    simp only [hidx, if_true, hcond, if_false]
    exact list_getD_set _ i _ hmaplen
  refine ⟨hget, ?_⟩
  have hlen : i < (buildProbabilities draws true (some sc)).length := by
    unfold buildProbabilities
    simp only [hidx, if_true, hcond, if_false]
    simpa using hilt
  rw [list_sum_eraseIdx _ i hlen, hsum, hget]

end Continuous

/- ### Hybrid sampler (`hospital_continuous_dataset.py`) -/

namespace Hybrid

/-- Hospital record: name, capacity, allocation cost, surge cost. -/
structure HospitalInfo where
  hname : String
  capacity : ℕ
  alloc_cost : ℚ
  surge_cost : ℚ
deriving DecidableEq

def hospitals : List (String × HospitalInfo) :=
  [("H1", ⟨"Central Hospital", 220, 2, 27/10⟩),
   ("H2", ⟨"North Clinic", 160, 22/10, 3⟩),
   ("H3", ⟨"South Medical Center", 140, 18/10, 243/100⟩)]

def shortage_penalty : ℚ := 8

/-- The same 8-scenario literal catalog as the discrete script. -/
def scenarios : List Dataset.DiscreteScenario :=
  [⟨"S0", "no_disaster", [6, 5, 4], 65/100⟩,
   ⟨"S1", "mild_flood", [60, 45, 35], 5/100⟩,
   ⟨"S2", "moderate_flood", [85, 65, 45], 4/100⟩,
   ⟨"S3", "earthquake", [110, 85, 65], 5/100⟩,
   ⟨"S4", "heatwave", [70, 55, 45], 10/100⟩,
   ⟨"S5", "severe_storm", [95, 75, 55], 5/100⟩,
   ⟨"S6", "major_earthquake", [150, 110, 90], 4/100⟩,
   ⟨"S7", "multi_wave_pandemic", [200, 140, 120], 2/100⟩]

def NUM_CONTINUOUS_SAMPLES_PER_SCENARIO : ℕ := 50

/-- The per-hospital demand of a sub-draw: literal base demand + regional +
idiosyncratic, clipped at zero, then rounded to an integer
(`np.round(...).astype(int)`). -/
def continuousDemand (base regional idiosyncratic : ℚ) : ℤ :=
  roundHalfEven (max 0 (base + regional + idiosyncratic))

/-- The scenario probabilities of the hybrid dataset, one entry per sub-draw:
each literal probability split evenly over the 50 sub-draws of its scenario. -/
def hybridScenarioProbs : List ℚ :=
  scenarios.flatMap (fun s =>
    List.replicate NUM_CONTINUOUS_SAMPLES_PER_SCENARIO
      (s.probability / NUM_CONTINUOUS_SAMPLES_PER_SCENARIO))

/-- Splitting each probability evenly over `n` sub-draws preserves the total. -/
lemma flatMap_replicate_sum (l : List Dataset.DiscreteScenario) (n : ℕ)
    (hn : (n : ℚ) ≠ 0) :
    (l.flatMap (fun s => List.replicate n (s.probability / n))).sum
      = (l.map Dataset.DiscreteScenario.probability).sum := by
  induction l with
  | nil => simp
  | cons s t ih =>
    simp only [List.flatMap_cons, List.sum_append, List.map_cons, List.sum_cons, ih]
    rw [List.sum_replicate, nsmul_eq_mul, mul_comm, div_mul_cancel₀ _ hn]

end Hybrid

/- ### Uncertainty-set builder (`uncertainty_sets.py`)

The builder consumes the per-hospital statistics (min, max, mean, sample std)
of the demand column; the interval constructions are functions of those
statistics, embedded here with the statistics as parameters. -/

namespace UncertaintySets

def MINMAX_BOX_LEVELS : List ℚ := [1, 75/100, 50/100]
def EV_BOX_LEVELS : List ℚ := [0, 1, 2]

/-- Min-max box lower bound at shrinkage level `alpha`:
`int(np.floor(dmin + (dmax - dmin) * (1 - alpha) / 2))`. -/
def minmaxLower (alpha dmin dmax : ℚ) : ℤ :=
  ⌊dmin + (dmax - dmin) * (1 - alpha) / 2⌋

/-- Min-max box upper bound at shrinkage level `alpha`:
`int(np.ceil(dmax - (dmax - dmin) * (1 - alpha) / 2))`. -/
def minmaxUpper (alpha dmin dmax : ℚ) : ℤ :=
  ⌈dmax - (dmax - dmin) * (1 - alpha) / 2⌉

/-- EV box lower bound: `int(np.floor(max(0.0, mu - k * sigma)))`. -/
def evLower (mu sigma k : ℚ) : ℤ := ⌊max 0 (mu - k * sigma)⌋

/-- EV box upper bound: `int(np.ceil(mu + k * sigma))`. -/
def evUpper (mu sigma k : ℚ) : ℤ := ⌈mu + k * sigma⌉

end UncertaintySets

/- ### Claims -/

/-- Claim C3: the discrete builder emits exactly 24 rows, one per
(scenario, hospital) pair over 8 scenarios and 3 hospitals, and the 8
scenario probabilities sum to exactly 1. -/
theorem discrete_dataset_shape :
    Dataset.discreteRows.length = 24 ∧
    Dataset.scenarios.length = 8 ∧
    Dataset.hospitals.length = 3 ∧
    (Dataset.scenarios.map Dataset.DiscreteScenario.probability).sum = 1 := by
  refine ⟨by decide, by decide, by decide, ?_⟩
  simp [Dataset.scenarios]
  norm_num

/-- Claim C1: for every dataset produced by any of the three generators the
scenario probabilities sum to 1: the discrete catalog sums to 1, the hybrid
generator splits each discrete probability evenly over its 50 sub-draws, and
the continuous pipeline normalizes any raw weights with positive total and
keeps the total at 1 through the baseline-share rescaling, including the
degenerate branch. -/
theorem probability_mass_sums_to_one (draws : List Continuous.ScenarioDraw)
    (b : Bool) (share? : Option ℚ)
    (h : 0 < (Continuous.weights draws).sum) :
    (Dataset.scenarios.map Dataset.DiscreteScenario.probability).sum = 1 ∧
    Hybrid.hybridScenarioProbs.sum = 1 ∧
    (Continuous.buildProbabilities draws b share?).sum = 1 := by
  refine ⟨?_, ?_, Continuous.buildProbabilities_sum_eq_one draws b share? (ne_of_gt h)⟩
  · simp [Dataset.scenarios]
    norm_num
  · rw [Hybrid.hybridScenarioProbs, Hybrid.flatMap_replicate_sum _ _
      (by norm_num [Hybrid.NUM_CONTINUOUS_SAMPLES_PER_SCENARIO])]
    simp [Hybrid.scenarios]
    norm_num

/-- Witness for C1 at a one-element draw list holding only the baseline draw,
which exercises the degenerate rescaling branch. -/
theorem probability_mass_sums_to_one_witness :
    0 < (Continuous.weights [Continuous.buildBaselineDraw]).sum ∧
    (Continuous.buildProbabilities [Continuous.buildBaselineDraw] true
      (some (35/100))).sum = 1 := by
  have hpos : 0 < (Continuous.weights [Continuous.buildBaselineDraw]).sum := by
    norm_num [Continuous.weights, Continuous.buildBaselineDraw, Continuous.BASELINE_WEIGHT]
  exact ⟨hpos,
    (probability_mass_sums_to_one [Continuous.buildBaselineDraw] true (some (35/100)) hpos).2.2⟩

/-- Claim C2: every demand value written by any generator is nonnegative: the
continuous and hybrid samplers clip the summed components at zero before
rounding, and the literal discrete demands are all positive. -/
theorem demand_nonneg (base sens globalSeverity regional idiosyncratic
    hybridBase hybridRegional hybridIdiosyncratic : ℚ) :
    0 ≤ round2 (Continuous.scenarioDemand base sens globalSeverity regional idiosyncratic) ∧
    0 ≤ Hybrid.continuousDemand hybridBase hybridRegional hybridIdiosyncratic ∧
    (Dataset.scenarios.all (fun s => s.demands.all (fun d => decide (0 < d)))) = true := by
  refine ⟨?_, ?_, ?_⟩
  · exact round2_nonneg (le_max_left 0 _)
  · exact roundHalfEven_nonneg (le_max_left 0 _)
  · simp [Dataset.scenarios]

/-- Claim C4: with the baseline enabled, the configured share 0.35 and at
least one non-baseline draw carrying positive weight, `build_dataframe`
assigns the CSBASE scenario probability 0.35 and rescales all other
scenarios proportionally so that they sum to 0.65. -/
theorem baseline_share_rescaling (draws : List Continuous.ScenarioDraw) (i : ℕ)
    (hidx : (Continuous.baselineIndices draws).head? = some i)
    (hsum : 0 < (Continuous.weights draws).sum)
    (hlt : (Continuous.weights draws).getD i 0 < (Continuous.weights draws).sum) :
    (Continuous.buildDataframeProbs draws).getD i 0 = 35/100 ∧
    ((Continuous.buildDataframeProbs draws).eraseIdx i).sum = 65/100 := by
  have hne := ne_of_gt hsum
  have hilt : i < (Continuous.weights draws).length := by
    simpa [Continuous.weights] using Continuous.head_baselineIndices_lt hidx
  have hres : (Continuous.normalizedProbs draws).getD i 0 < 1 := by
    rw [Continuous.normalizedProbs, list_getD_map _ _ i hilt]
    exact (div_lt_one hsum).mpr hlt
  have hmain :=
    Continuous.buildProbabilities_baseline_share draws i (35/100) hne hidx hres
  have hclip : min (max (35/100 : ℚ) 0) (95/100) = 35/100 := by norm_num
  rw [Continuous.buildDataframeProbs, Continuous.INCLUDE_BASELINE_SCENARIO,
    Continuous.BASELINE_PROBABILITY_SHARE]
  rw [hclip] at hmain
  exact ⟨hmain.1, by rw [hmain.2]; norm_num⟩

/-- Witness for C4: the baseline draw plus one random draw of equal weight. -/
theorem baseline_share_rescaling_witness :
    (Continuous.baselineIndices
      [Continuous.buildBaselineDraw,
       ⟨"CS0000", "seasonal_flu", 1, 2, [0, 0, 0], [0, 0, 0], 1, [20, 15, 12]⟩]).head?
        = some 0 ∧
    0 < (Continuous.weights
      [Continuous.buildBaselineDraw,
       ⟨"CS0000", "seasonal_flu", 1, 2, [0, 0, 0], [0, 0, 0], 1, [20, 15, 12]⟩]).sum ∧
    (Continuous.weights
      [Continuous.buildBaselineDraw,
       ⟨"CS0000", "seasonal_flu", 1, 2, [0, 0, 0], [0, 0, 0], 1, [20, 15, 12]⟩]).getD 0 0
      < (Continuous.weights
      [Continuous.buildBaselineDraw,
       ⟨"CS0000", "seasonal_flu", 1, 2, [0, 0, 0], [0, 0, 0], 1, [20, 15, 12]⟩]).sum ∧
    ((Continuous.buildDataframeProbs
      [Continuous.buildBaselineDraw,
       ⟨"CS0000", "seasonal_flu", 1, 2, [0, 0, 0], [0, 0, 0], 1, [20, 15, 12]⟩]).getD 0 0
        = 35/100 ∧
     ((Continuous.buildDataframeProbs
      [Continuous.buildBaselineDraw,
       ⟨"CS0000", "seasonal_flu", 1, 2, [0, 0, 0], [0, 0, 0], 1, [20, 15, 12]⟩]).eraseIdx 0).sum
        = 65/100) := by
  have h1 : (Continuous.baselineIndices
      [Continuous.buildBaselineDraw,
       ⟨"CS0000", "seasonal_flu", 1, 2, [0, 0, 0], [0, 0, 0], 1, [20, 15, 12]⟩]).head?
        = some 0 := by
    simp [Continuous.baselineIndices, Continuous.buildBaselineDraw, List.range_succ]
  have h2 : 0 < (Continuous.weights
      [Continuous.buildBaselineDraw,
       ⟨"CS0000", "seasonal_flu", 1, 2, [0, 0, 0], [0, 0, 0], 1, [20, 15, 12]⟩]).sum := by
    norm_num [Continuous.weights, Continuous.buildBaselineDraw, Continuous.BASELINE_WEIGHT]
  have h3 : (Continuous.weights
      [Continuous.buildBaselineDraw,
       ⟨"CS0000", "seasonal_flu", 1, 2, [0, 0, 0], [0, 0, 0], 1, [20, 15, 12]⟩]).getD 0 0
      < (Continuous.weights
      [Continuous.buildBaselineDraw,
       ⟨"CS0000", "seasonal_flu", 1, 2, [0, 0, 0], [0, 0, 0], 1, [20, 15, 12]⟩]).sum := by
    norm_num [Continuous.weights, Continuous.buildBaselineDraw, Continuous.BASELINE_WEIGHT]
  exact ⟨h1, h2, h3, baseline_share_rescaling _ 0 h1 h2 h3⟩

/-- Claim C5: for any observed minimum and maximum, the minmax box at level
1.0 has lower bound the floor of the minimum and upper bound the ceiling of
the maximum. -/
theorem minmax_box_level_one_bounds (dmin dmax : ℚ) :
    UncertaintySets.minmaxLower 1 dmin dmax = ⌊dmin⌋ ∧
    UncertaintySets.minmaxUpper 1 dmin dmax = ⌈dmax⌉ := by
  unfold UncertaintySets.minmaxLower UncertaintySets.minmaxUpper
  constructor
  · have e : dmin + (dmax - dmin) * (1 - 1) / 2 = dmin := by ring
    rw [e]
  · have e : dmax - (dmax - dmin) * (1 - 1) / 2 = dmax := by ring
    rw [e]

/-- Counterexample to C6 as stated: with min 0 and max 1 (so max > min), the
outward integer rounding makes the level-0.5 minmax box identical to the
level-1.0 box, so it is not strictly narrower. -/
theorem minmax_box_half_level_counterexample :
    (0 : ℚ) < 1 ∧
    ¬(UncertaintySets.minmaxUpper (1/2) 0 1 - UncertaintySets.minmaxLower (1/2) 0 1
        < UncertaintySets.minmaxUpper 1 0 1 - UncertaintySets.minmaxLower 1 0 1) := by
  have hl05 : UncertaintySets.minmaxLower (1/2) 0 1 = 0 := by
    unfold UncertaintySets.minmaxLower
    rw [Int.floor_eq_iff]
    norm_num
  have hu05 : UncertaintySets.minmaxUpper (1/2) 0 1 = 1 := by
    unfold UncertaintySets.minmaxUpper
    rw [Int.ceil_eq_iff]
    norm_num
  have hl1 : UncertaintySets.minmaxLower 1 0 1 = 0 := by
    unfold UncertaintySets.minmaxLower
    rw [Int.floor_eq_iff]
    norm_num
  have hu1 : UncertaintySets.minmaxUpper 1 0 1 = 1 := by
    unfold UncertaintySets.minmaxUpper
    rw [Int.ceil_eq_iff]
    norm_num
  rw [hl05, hu05, hl1, hu1]
  norm_num

/-- Claim C6 as amended: after the floor/ceil rounding the level-0.5 minmax
box is never wider than the level-1.0 box, and it is strictly narrower
whenever the observed range is at least 4. -/
theorem minmax_box_half_level_narrowing (dmin dmax : ℚ) (h : dmin ≤ dmax) :
    (UncertaintySets.minmaxUpper (1/2) dmin dmax
        - UncertaintySets.minmaxLower (1/2) dmin dmax
      ≤ UncertaintySets.minmaxUpper 1 dmin dmax
        - UncertaintySets.minmaxLower 1 dmin dmax) ∧
    (4 ≤ dmax - dmin →
      UncertaintySets.minmaxUpper (1/2) dmin dmax
          - UncertaintySets.minmaxLower (1/2) dmin dmax
        < UncertaintySets.minmaxUpper 1 dmin dmax
          - UncertaintySets.minmaxLower 1 dmin dmax) := by
  unfold UncertaintySets.minmaxLower UncertaintySets.minmaxUpper
  have e1 : dmin + (dmax - dmin) * (1 - 1) / 2 = dmin := by ring
  have e2 : dmax - (dmax - dmin) * (1 - 1) / 2 = dmax := by ring
  rw [e1, e2]
  have hlow : ⌊dmin⌋ ≤ ⌊dmin + (dmax - dmin) * (1 - 1/2) / 2⌋ :=
    Int.floor_mono (by linarith)
  have hup : ⌈dmax - (dmax - dmin) * (1 - 1/2) / 2⌉ ≤ ⌈dmax⌉ :=
    Int.ceil_mono (by linarith)
  refine ⟨by omega, ?_⟩
  intro h4
  have hlow2 : ⌊dmin + 1⌋ ≤ ⌊dmin + (dmax - dmin) * (1 - 1/2) / 2⌋ :=
    Int.floor_mono (by linarith)
  have hup2 : ⌈dmax - (dmax - dmin) * (1 - 1/2) / 2⌉ ≤ ⌈dmax - 1⌉ :=
    Int.ceil_mono (by linarith)
  rw [Int.floor_add_one] at hlow2
  rw [Int.ceil_sub_one] at hup2
  omega

/-- Witness for the amended C6 at min 0, max 4. -/
theorem minmax_box_half_level_narrowing_witness :
    (0 : ℚ) ≤ 4 ∧ (4 : ℚ) ≤ 4 - 0 ∧
    UncertaintySets.minmaxUpper (1/2) 0 4 - UncertaintySets.minmaxLower (1/2) 0 4
      < UncertaintySets.minmaxUpper 1 0 4 - UncertaintySets.minmaxLower 1 0 4 :=
  ⟨by norm_num, by norm_num,
    (minmax_box_half_level_narrowing 0 4 (by norm_num)).2 (by norm_num)⟩

/-- Counterexample to C7 as stated: at k = 0 with a fractional mean 2.5 the
EV box has lower bound 2 and upper bound 3, so the bounds do not coincide. -/
theorem ev_box_k_zero_counterexample :
    UncertaintySets.evLower (5/2) 1 0 ≠ UncertaintySets.evUpper (5/2) 1 0 := by
  have hl : UncertaintySets.evLower (5/2) 1 0 = 2 := by
    unfold UncertaintySets.evLower
    have e : max 0 ((5/2 : ℚ) - 0 * 1) = 5/2 := by
      rw [max_eq_right] <;> norm_num
    rw [e, Int.floor_eq_iff]
    norm_num
  have hu : UncertaintySets.evUpper (5/2) 1 0 = 3 := by
    unfold UncertaintySets.evUpper
    rw [Int.ceil_eq_iff]
    norm_num
  rw [hl, hu]
  decide

/-- Claim C7 as amended: at k = 0 and a nonnegative mean the EV box is the
floor of the mean up to its ceiling; the two coincide only for an integer
mean. -/
theorem ev_box_k_zero_floor_ceil (mu sigma : ℚ) (h : 0 ≤ mu) :
    UncertaintySets.evLower mu sigma 0 = ⌊mu⌋ ∧
    UncertaintySets.evUpper mu sigma 0 = ⌈mu⌉ := by
  unfold UncertaintySets.evLower UncertaintySets.evUpper
  constructor
  · have e : max 0 (mu - 0 * sigma) = mu := by
      rw [zero_mul, sub_zero]
      exact max_eq_right h
    rw [e]
  · rw [zero_mul, add_zero]

/-- Witness for the amended C7 at mean 7/2. -/
theorem ev_box_k_zero_floor_ceil_witness :
    0 ≤ (7/2 : ℚ) ∧
    UncertaintySets.evLower (7/2) 3 0 = 3 ∧ UncertaintySets.evUpper (7/2) 3 0 = 4 := by
  have h := ev_box_k_zero_floor_ceil (7/2) 3 (by norm_num)
  refine ⟨by norm_num, ?_, ?_⟩
  · rw [h.1, Int.floor_eq_iff]
    norm_num
  · rw [h.2, Int.ceil_eq_iff]
    norm_num

/-- Claim C8: the EV box lower bound is nonnegative for every mean, standard
deviation and level, because the lower edge is clipped at zero before the
floor is taken. -/
theorem ev_box_lower_nonneg (mu sigma k : ℚ) :
    0 ≤ UncertaintySets.evLower mu sigma k := by
  unfold UncertaintySets.evLower
  exact Int.floor_nonneg.mpr (le_max_left 0 _)

/-- Counterexample to C9 as stated: with the baseline not required and a
scenario count of -1, `sample_scenarios` still raises, so the raise does not
happen only when the baseline is required. -/
theorem sample_scenarios_raise_counterexample :
    ¬(Continuous.sampleScenariosRaises (-1) false = true ↔
        ((-1 : ℤ) < 1 ∧ false = true)) := by
  decide

/-- Claim C9 as amended: `sample_scenarios` raises exactly when the scenario
count minus the baseline reservation is negative — below 1 with the baseline
required, below 0 without it; in particular no count of at least 1 with the
baseline required raises. -/
theorem sample_scenarios_raise_condition (numScenarios : ℤ) (includeBaseline : Bool) :
    Continuous.sampleScenariosRaises numScenarios includeBaseline = true ↔
      numScenarios < (if includeBaseline then 1 else 0) := by
  cases includeBaseline <;> simp [Continuous.sampleScenariosRaises]

/-- Claim C10: every emitted interval satisfies lower ≤ upper: for the minmax
box at any level in [0,1] over ordered statistics, and for the EV box at any
nonnegative k over a nonnegative mean and standard deviation, the pre-rounding
lower edge never exceeds the upper edge and the rounding is outward. -/
theorem uncertainty_intervals_ordered (alpha dmin dmax mu sigma k : ℚ)
    (h0 : 0 ≤ alpha) (_h1 : alpha ≤ 1) (h2 : dmin ≤ dmax)
    (h3 : 0 ≤ mu) (h4 : 0 ≤ sigma) (h5 : 0 ≤ k) :
    UncertaintySets.minmaxLower alpha dmin dmax
      ≤ UncertaintySets.minmaxUpper alpha dmin dmax ∧
    UncertaintySets.evLower mu sigma k ≤ UncertaintySets.evUpper mu sigma k := by
  constructor
  · unfold UncertaintySets.minmaxLower UncertaintySets.minmaxUpper
    have hmul : 0 ≤ (dmax - dmin) * alpha :=
      mul_nonneg (sub_nonneg.mpr h2) h0
    have hle : dmin + (dmax - dmin) * (1 - alpha) / 2
        ≤ dmax - (dmax - dmin) * (1 - alpha) / 2 := by linarith
    exact le_trans (Int.floor_mono hle) (Int.floor_le_ceil _)
  · unfold UncertaintySets.evLower UncertaintySets.evUpper
    have hks : 0 ≤ k * sigma := mul_nonneg h5 h4
    have hle : max 0 (mu - k * sigma) ≤ mu + k * sigma :=
      max_le (by linarith) (by linarith)
    exact le_trans (Int.floor_mono hle) (Int.floor_le_ceil _)

/-- Witness for C10 at level 1/2 over [0, 10] and an EV box with mean 2,
standard deviation 1 and k = 2. -/
theorem uncertainty_intervals_ordered_witness :
    (0 : ℚ) ≤ 1/2 ∧ (1/2 : ℚ) ≤ 1 ∧ (0 : ℚ) ≤ 10 ∧
    (0 : ℚ) ≤ 2 ∧ (0 : ℚ) ≤ 1 ∧ (0 : ℚ) ≤ 2 ∧
    (UncertaintySets.minmaxLower (1/2) 0 10 ≤ UncertaintySets.minmaxUpper (1/2) 0 10 ∧
     UncertaintySets.evLower 2 1 2 ≤ UncertaintySets.evUpper 2 1 2) :=
  ⟨by norm_num, by norm_num, by norm_num, by norm_num, by norm_num, by norm_num,
    uncertainty_intervals_ordered (1/2) 0 10 2 1 2 (by norm_num) (by norm_num)
      (by norm_num) (by norm_num) (by norm_num) (by norm_num)⟩
